import Mathlib

/-!
Verification development for the homebridge-mitsubishi-comfort plugin
(Kumo Cloud v3 client).  The definitions below are a shallow embedding of
the TypeScript source: `KumoThermostatAccessory` (src/accessory.ts),
`KumoAPI` (src/kumo-api.ts) and `KumoV3Platform` (src/platform.ts,
streaming-aware version).  JavaScript field values that may be
`undefined`, `null`, `NaN` or a number are modelled by `JsVal`; async
operations are modelled by explicit state passing, and side effects
(timers, network sends, log lines) by explicit event lists.
-/

/-- A JavaScript numeric field value: `undefined`, `null`, `NaN`, or a
plain number (numbers modelled as rationals). -/
inductive JsVal where
  | undef
  | null
  | nan
  | num (q : ℚ)
deriving DecidableEq

/-- The check `v === undefined || v === null` used throughout the source
to reject missing fields. -/
def JsVal.isMissing : JsVal → Bool
  | .undef => true
  | .null => true
  | _ => false

/-- JavaScript falsiness for a `JsVal`: `undefined`, `null`, `NaN` and
`0` are falsy. -/
def JsVal.isFalsy : JsVal → Bool
  | .undef => true
  | .null => true
  | .nan => true
  | .num q => q = 0

/-- The check `v !== undefined && v !== null && !isNaN(v)`: `v` is a
plain usable number. -/
def JsVal.isPlainNumber : JsVal → Bool
  | .num _ => true
  | _ => false

/-- JavaScript `a || b` on numeric fields. -/
def jsOr (v d : JsVal) : JsVal :=
  if v.isFalsy then d else v

/-- JavaScript `a || b` on an optional string (absent or empty falls back). -/
def strOr (v : Option String) (d : String) : String :=
  match v with
  | some s => if s = "" then d else s
  | none => d

/-- The `DeviceStatus` record of settings.ts, restricted to the fields the
accessory reads and writes.  `id` is `none` when the source of the status
carried no zone id (the streaming path synthesizes a zone without one). -/
structure DeviceStatus where
  id : Option String
  deviceSerial : String
  rssi : JsVal
  power : JsVal
  operationMode : String
  humidity : JsVal
  fanSpeed : String
  airDirection : String
  roomTemp : JsVal
  spCool : JsVal
  spHeat : JsVal
  spAuto : JsVal
deriving DecidableEq

/-- The `zone.adapter` record, restricted to the fields `processZoneUpdate`
reads. -/
structure ZoneAdapter where
  id : String
  deviceSerial : String
  roomTemp : JsVal
  spHeat : JsVal
  spCool : JsVal
  spAuto : JsVal
  humidity : JsVal
  power : JsVal
  operationMode : String
  fanSpeed : String
  airDirection : String
  rssi : JsVal
deriving DecidableEq

/-- A zone as delivered by the pull channel (`id` present) or synthesized
by the push channel (`id` absent, see `handleStreamingUpdate`). -/
structure Zone where
  id : Option String
  adapter : ZoneAdapter
deriving DecidableEq

/-- Mutable per-accessory state: the cached latest device status and the
humidity-characteristic registration flag. -/
structure AccessoryState where
  currentStatus : Option DeviceStatus
  hasHumiditySensor : Bool
deriving DecidableEq

/-- `KumoThermostatAccessory.processZoneUpdate`: rejects the snapshot when
`zone.adapter.roomTemp` is `undefined` or `null`, otherwise converts the
adapter data to a `DeviceStatus` and replaces the cached status.
HomeKit characteristic pushes and log lines are omitted; they do not
touch the store. -/
def processZoneUpdate (st : AccessoryState) (zone : Zone) : AccessoryState :=
  if zone.adapter.roomTemp.isMissing then st
  else
    let hasHumidity := !zone.adapter.humidity.isMissing
    let status : DeviceStatus :=
      { id := zone.id
        deviceSerial := zone.adapter.deviceSerial
        rssi := jsOr zone.adapter.rssi (.num 0)
        power := zone.adapter.power
        operationMode := zone.adapter.operationMode
        humidity := zone.adapter.humidity
        fanSpeed := zone.adapter.fanSpeed
        airDirection := zone.adapter.airDirection
        roomTemp := zone.adapter.roomTemp
        spCool := zone.adapter.spCool
        spHeat := zone.adapter.spHeat
        spAuto := zone.adapter.spAuto }
    { currentStatus := some status, hasHumiditySensor := hasHumidity }

/-- `KumoThermostatAccessory.updateFromZone`, the pull-channel entry point. -/
def updateFromZone (st : AccessoryState) (zone : Zone) : AccessoryState :=
  processZoneUpdate st zone

/-- The payload of a `device_update` streaming event, restricted to the
fields `handleStreamingUpdate` reads. -/
structure StreamUpdate where
  id : Option String
  roomTemp : JsVal
  spHeat : JsVal
  spCool : JsVal
  spAuto : JsVal
  humidity : JsVal
  power : JsVal
  operationMode : String
  fanSpeed : Option String
  airDirection : Option String
  rssi : JsVal
deriving DecidableEq

/-- `KumoThermostatAccessory.handleStreamingUpdate`: skips the update when
`data.roomTemp` is `undefined` or `null`, otherwise converts the streaming
payload to the zone format and reuses `processZoneUpdate`. -/
def handleStreamingUpdate (st : AccessoryState) (deviceSerial : String)
    (data : StreamUpdate) : AccessoryState :=
  if data.roomTemp.isMissing then st
  else
    let zone : Zone :=
      { id := none
        adapter :=
          { id := strOr data.id ""
            deviceSerial := deviceSerial
            roomTemp := data.roomTemp
            spHeat := data.spHeat
            spCool := data.spCool
            spAuto := jsOr data.spAuto .null
            humidity := jsOr data.humidity .null
            power := data.power
            operationMode := data.operationMode
            fanSpeed := strOr data.fanSpeed "auto"
            airDirection := strOr data.airDirection "auto"
            rssi := data.rssi } }
    processZoneUpdate st zone

/-- `KumoThermostatAccessory.getTargetTempFromStatus`: the mode-specific
setpoint, falling back to the heat setpoint and then to 20. -/
def getTargetTempFromStatus (status : DeviceStatus) : JsVal :=
  if status.operationMode = "heat" ∧ status.spHeat.isMissing = false then
    status.spHeat
  else if status.operationMode = "cool" ∧ status.spCool.isMissing = false then
    status.spCool
  else if status.operationMode = "auto" ∧ status.spAuto.isMissing = false then
    status.spAuto
  else if status.spHeat.isMissing = false then
    status.spHeat
  else
    .num 20

/-- `KumoThermostatAccessory.getCurrentTemperature`.  `cached` is the
accessory's `currentStatus`; `fetched` is the result of the on-demand
`getDeviceStatus` call performed when no status is cached (`none` when
that fetch fails). -/
def getCurrentTemperature (cached fetched : Option DeviceStatus) : JsVal :=
  match (match cached with | some s => some s | none => fetched) with
  | none => .num 20
  | some s => if s.roomTemp.isPlainNumber then s.roomTemp else .num 20

/-- `KumoThermostatAccessory.getTargetTemperature`, with the same
cached/fetched convention as `getCurrentTemperature`. -/
def getTargetTemperature (cached fetched : Option DeviceStatus) : JsVal :=
  match (match cached with | some s => some s | none => fetched) with
  | none => .num 20
  | some s =>
    let t := getTargetTempFromStatus s
    if t.isPlainNumber then t else .num 20

/-- The `Commands` payload sent to `/devices/send-command`; only fields
actually placed in the request are `some`. -/
structure Commands where
  operationMode : Option String := none
  spHeat : Option ℚ := none
  spCool : Option ℚ := none
deriving DecidableEq

/-- Observable side effects of the accessory's command setters: the remote
send, the immediate HomeKit characteristic push, a scheduled confirmation
re-fetch (never produced by this code, present so its absence can be
stated), and an error log line. -/
inductive AccEffect where
  | sendCmd (deviceSerial : String) (cmds : Commands)
  | updateTargetTempChar (temp : ℚ)
  | scheduleRefetch (delayMs : ℕ)
  | logError
deriving DecidableEq

/-- Is the effect a remote send? -/
def AccEffect.isSend : AccEffect → Bool
  | .sendCmd _ _ => true
  | _ => false

/-- Is the effect a scheduled confirmation re-fetch? -/
def AccEffect.isRefetch : AccEffect → Bool
  | .scheduleRefetch _ => true
  | _ => false

/-- The HomeKit `TargetHeatingCoolingState` value-to-mode mapping in
`setTargetHeatingCoolingState` (OFF = 0, HEAT = 1, COOL = 2, AUTO = 3;
anything else hits the `default` branch). -/
def hkValueToMode (value : ℕ) : Option String :=
  if value = 0 then some "off"
  else if value = 1 then some "heat"
  else if value = 2 then some "cool"
  else if value = 3 then some "auto"
  else none

/-- `KumoThermostatAccessory.setTargetHeatingCoolingState`.  `sendOk` is
the boolean returned by `kumoAPI.sendCommand`.  On success the optimistic
update sets `operationMode` and the derived `power` flag; on failure the
state is untouched and the failure is logged.  No re-fetch is scheduled
(the source's comment: the platform updates on the next poll cycle). -/
def setTargetHeatingCoolingState (st : AccessoryState) (serial : String)
    (value : ℕ) (sendOk : Bool) : AccessoryState × List AccEffect :=
  match hkValueToMode value with
  | none => (st, [.logError])
  | some operationMode =>
    let sendEff := AccEffect.sendCmd serial { operationMode := some operationMode }
    if sendOk then
      match st.currentStatus with
      | some s =>
        let s2 := { s with operationMode := operationMode,
                           power := .num (if operationMode = "off" then 0 else 1) }
        ({ st with currentStatus := some s2 }, [sendEff])
      | none => (st, [sendEff])
    else (st, [sendEff, .logError])

/-- The setpoint commands built by `setTargetTemperature` from the current
operation mode. -/
def tempCommandsFor (mode : String) (temp : ℚ) : Commands :=
  if mode = "heat" then { spHeat := some temp }
  else if mode = "cool" then { spCool := some temp }
  else if mode = "auto" then { spHeat := some temp, spCool := some temp }
  else { spHeat := some temp }

/-- `KumoThermostatAccessory.setTargetTemperature`.  Without a cached
status the setter only logs; otherwise it sends the mode-appropriate
setpoint commands, and on success optimistically merges exactly the
commanded setpoints and pushes the new value to HomeKit. -/
def setTargetTemperature (st : AccessoryState) (serial : String)
    (temp : ℚ) (sendOk : Bool) : AccessoryState × List AccEffect :=
  match st.currentStatus with
  | none => (st, [.logError])
  | some s =>
    let cmds := tempCommandsFor s.operationMode temp
    let sendEff := AccEffect.sendCmd serial cmds
    if sendOk then
      let s2 := { s with
        spHeat := match cmds.spHeat with | some h => .num h | none => s.spHeat
        spCool := match cmds.spCool with | some c => .num c | none => s.spCool }
      ({ st with currentStatus := some s2 }, [sendEff, .updateTargetTempChar temp])
    else (st, [sendEff, .logError])

/-- The token-session fields of `KumoAPI` relevant to `ensureAuthenticated`,
plus instrumentation: `startedRefreshOps` counts refresh/login operations
started by `ensureAuthenticated`, and promise identities let distinct
in-flight refreshes be told apart. -/
structure AuthState where
  accessToken : Option String
  now : ℤ
  tokenExpiresAt : ℤ
  refreshInProgress : Option ℕ
  startedRefreshOps : ℕ
  nextPromiseId : ℕ
deriving DecidableEq

/-- The guard of `ensureAuthenticated`: no access token, or within the
5-minute safety margin of the estimated expiry. -/
def tokenNeedsRefresh (st : AuthState) : Bool :=
  st.accessToken.isNone || decide (st.now ≥ st.tokenExpiresAt - 5 * 60 * 1000)

/-- What one call to `ensureAuthenticated` does before suspending:
either it already holds a valid token, or it awaits some refresh promise. -/
inductive AuthAwait where
  | immediateTrue
  | awaitPromise (pid : ℕ)
deriving DecidableEq

/-- The synchronous prefix of `KumoAPI.ensureAuthenticated` (up to its
first `await`, which is atomic on the JavaScript event loop): with a valid
token it returns true at once; otherwise it joins the in-flight refresh
promise if one exists, and only if none exists does it start a new
refresh/login operation and store its promise as the lock. -/
def ensureAuthenticatedEntry (st : AuthState) : AuthState × AuthAwait :=
  if tokenNeedsRefresh st then
    match st.refreshInProgress with
    | some pid => (st, .awaitPromise pid)
    | none =>
      ({ st with refreshInProgress := some st.nextPromiseId
                 startedRefreshOps := st.startedRefreshOps + 1
                 nextPromiseId := st.nextPromiseId + 1 },
       .awaitPromise st.nextPromiseId)
  else (st, .immediateTrue)

/-- `n` concurrent callers of `ensureAuthenticated` whose synchronous
prefixes all run before the in-flight refresh resolves.  Each prefix is
atomic, so any interleaving is a sequence of `ensureAuthenticatedEntry`
steps. -/
def runConcurrentEntries : ℕ → AuthState → AuthState × List AuthAwait
  | 0, st => (st, [])
  | n + 1, st =>
    let r1 := ensureAuthenticatedEntry st
    let r2 := runConcurrentEntries n r1.1
    (r2.1, r1.2 :: r2.2)

/-- The boolean each caller resolves to once the awaited refresh promise
settles with outcome `b`. -/
def resolveAwait (b : Bool) : AuthAwait → Bool
  | .immediateTrue => true
  | .awaitPromise _ => b

/-- The `devices` field of a send-command response as JavaScript sees it:
absent, `null`, present but not an array, or an array of serials. -/
inductive DevicesField where
  | undef
  | null
  | notAnArray
  | arr (devices : List String)
deriving DecidableEq

/-- The send-command response body. -/
structure SendCommandResponse where
  devices : DevicesField
deriving DecidableEq

/-- `KumoAPI.sendCommand`, from the point where the authenticated request
resolves (`none` models every failure of the request layer: auth failure,
HTTP error, malformed body, network error). -/
def sendCommand (deviceSerial : String)
    (response : Option SendCommandResponse) : Bool :=
  match response with
  | none => false
  | some r =>
    match r.devices with
    | .arr ds => ds.contains deviceSerial
    | _ => false

/-- What the zones HTTP request can come back with: a 304 Not Modified,
another non-OK status, an OK body with an optional new etag header, or a
thrown network error. -/
inductive ZonesHttpReply where
  | notModified304
  | httpError (status : ℕ)
  | ok (zones : List Zone) (etagHeader : Option String)
  | networkError
deriving DecidableEq

/-- The result record of `getZonesWithETag`. -/
structure ZonesWithETagResult where
  zones : List Zone
  notModified : Bool
deriving DecidableEq

/-- `KumoAPI.getZonesWithETag` for one site: takes the stored etag for the
site and the outcome of the conditional fetch, returns the result record
and the site's new stored etag. -/
def getZonesWithETag (storedEtag : Option String) (authOk : Bool)
    (reply : ZonesHttpReply) : ZonesWithETagResult × Option String :=
  if !authOk then ({ zones := [], notModified := false }, storedEtag)
  else
    match reply with
    | .notModified304 => ({ zones := [], notModified := true }, storedEtag)
    | .httpError _ => ({ zones := [], notModified := false }, storedEtag)
    | .networkError => ({ zones := [], notModified := false }, storedEtag)
    | .ok zones etagHeader =>
      ({ zones := zones, notModified := false },
       match etagHeader with
       | some e => some e
       | none => storedEtag)

/-- One accessory handler of a site, as the platform's site-poller sees
it: its device serial and its accessory state. -/
structure SiteHandler where
  serial : String
  acc : AccessoryState
deriving DecidableEq

/-- The distribution loop of `KumoV3Platform.pollSite`: each handler whose
serial appears in the fetched zones gets `updateFromZone`; a handler with
no matching zone is left untouched (a warning is logged, nothing is
cleared). -/
def pollSiteDistribute (handlers : List SiteHandler) (zones : List Zone) :
    List SiteHandler :=
  handlers.map fun h =>
    match zones.find? (fun z => z.adapter.deviceSerial == h.serial) with
    | some z => { h with acc := updateFromZone h.acc z }
    | none => h

/-- The platform configuration fields that drive polling.  The options
mirror absent config keys; JavaScript `||` defaulting treats 0 as absent. -/
structure PlatformCfg where
  disablePolling : Bool
  pollInterval : Option ℕ
  degradedPollInterval : Option ℕ
deriving DecidableEq

/-- JavaScript `v || d` for an optional numeric config value. -/
def natOrDefault (v : Option ℕ) (d : ℕ) : ℕ :=
  match v with
  | some n => if n = 0 then d else n
  | none => d

/-- `(kumoConfig.pollInterval || 30) * 1000`, the normal poll interval in
milliseconds. -/
def normalIntervalMs (cfg : PlatformCfg) : ℕ :=
  natOrDefault cfg.pollInterval 30 * 1000

/-- `(kumoConfig.degradedPollInterval || 10) * 1000`, the degraded poll
interval in milliseconds, fixed at construction. -/
def degradedIntervalMs (cfg : PlatformCfg) : ℕ :=
  natOrDefault cfg.degradedPollInterval 10 * 1000

/-- One entry of the `sitePollers` map: the live `setInterval` timer
(identified so cancellation can be observed) and its interval. -/
structure Poller where
  timerId : ℕ
  intervalMs : ℕ
deriving DecidableEq

/-- The poller-relevant mutable state of `KumoV3Platform`.  `sitePollers`
is the `Map` keyed by site id, in insertion order; `nextTimerId` supplies
fresh timer identities. -/
structure PlatformState where
  sitePollers : List (String × Poller)
  isStreamingHealthy : Bool
  isDegradedMode : Bool
  nextTimerId : ℕ
deriving DecidableEq

/-- Observable timer and pull effects of the platform's poller logic. -/
inductive PollerEvent where
  | cancelTimer (siteId : String) (timerId : ℕ)
  | immediatePoll (siteId : String)
  | armTimer (siteId : String) (timerId : ℕ) (intervalMs : ℕ)
deriving DecidableEq

/-- Is the event the arming of a pull timer? -/
def PollerEvent.isArm : PollerEvent → Bool
  | .armTimer _ _ _ => true
  | _ => false

/-- Is the event an immediate pull? -/
def PollerEvent.isPoll : PollerEvent → Bool
  | .immediatePoll _ => true
  | _ => false

/-- `KumoV3Platform.startSitePoller`: a no-op when the site already has a
poller, and when streaming is healthy with polling disabled; otherwise it
performs one immediate poll and arms a timer at the degraded or normal
interval according to the current mode.  (The accessory grouping stored
in `siteAccessories` and the log lines are omitted; they do not affect
pollers.) -/
def startSitePoller (cfg : PlatformCfg) (st : PlatformState)
    (siteId : String) : PlatformState × List PollerEvent :=
  if (st.sitePollers.lookup siteId).isSome then (st, [])
  else if st.isStreamingHealthy && cfg.disablePolling then (st, [])
  else
    let interval := if st.isDegradedMode then degradedIntervalMs cfg
                    else normalIntervalMs cfg
    ({ st with sitePollers := st.sitePollers ++ [(siteId, ⟨st.nextTimerId, interval⟩)],
               nextTimerId := st.nextTimerId + 1 },
     [.immediatePoll siteId, .armTimer siteId st.nextTimerId interval])

/-- The loop body of `KumoV3Platform.restartAllPollers` over the map
entries: clear the timer, poll immediately, arm a fresh timer at the new
interval (`Map.set` on an existing key keeps the entry's position). -/
def restartEntries (entries : List (String × Poller)) (nextId intervalMs : ℕ) :
    List (String × Poller) × List PollerEvent × ℕ :=
  match entries with
  | [] => ([], [], nextId)
  | (siteId, p) :: rest =>
    let r := restartEntries rest (nextId + 1) intervalMs
    ((siteId, ⟨nextId, intervalMs⟩) :: r.1,
     [.cancelTimer siteId p.timerId, .immediatePoll siteId,
      .armTimer siteId nextId intervalMs] ++ r.2.1,
     r.2.2)

/-- `KumoV3Platform.restartAllPollers`. -/
def restartAllPollers (st : PlatformState) (intervalMs : ℕ) :
    PlatformState × List PollerEvent :=
  let r := restartEntries st.sitePollers st.nextTimerId intervalMs
  ({ st with sitePollers := r.1, nextTimerId := r.2.2 }, r.2.1)

/-- `KumoV3Platform.stopAllPollers`: clear every timer and empty the map;
device state stores are untouched. -/
def stopAllPollers (st : PlatformState) : PlatformState × List PollerEvent :=
  ({ st with sitePollers := [] },
   st.sitePollers.map fun e => .cancelTimer e.1 e.2.timerId)

/-- `KumoV3Platform.enterDegradedMode`: guard on already-degraded, then
restart every existing poller at the degraded interval.  Note: it only
restarts pollers already in `sitePollers`; it never starts one for a site
without a poller. -/
def enterDegradedMode (cfg : PlatformCfg) (st : PlatformState) :
    PlatformState × List PollerEvent :=
  if st.isDegradedMode then (st, [])
  else restartAllPollers { st with isDegradedMode := true } (degradedIntervalMs cfg)

/-- `KumoV3Platform.exitDegradedMode`: guard on not-degraded; with
`disablePolling` stop every poller, otherwise restart them all at the
normal interval. -/
def exitDegradedMode (cfg : PlatformCfg) (st : PlatformState) :
    PlatformState × List PollerEvent :=
  if !st.isDegradedMode then (st, [])
  else
    let st1 := { st with isDegradedMode := false }
    if cfg.disablePolling then stopAllPollers st1
    else restartAllPollers st1 (normalIntervalMs cfg)

/-- `KumoV3Platform.handleStreamingHealthChange`: record the new health
value and act only on actual flips. -/
def handleStreamingHealthChange (cfg : PlatformCfg) (st : PlatformState)
    (isHealthy : Bool) : PlatformState × List PollerEvent :=
  let wasHealthy := st.isStreamingHealthy
  let st1 := { st with isStreamingHealthy := isHealthy }
  if wasHealthy && !isHealthy then enterDegradedMode cfg st1
  else if !wasHealthy && isHealthy then exitDegradedMode cfg st1
  else (st1, [])

/-- The tail of `KumoV3Platform.discoverDevices`: with polling enabled it
starts a poller for every discovered site; with `disablePolling` set it
starts none at all. -/
def startPollersAfterDiscovery (cfg : PlatformCfg) (siteIds : List String)
    (st : PlatformState) : PlatformState × List PollerEvent :=
  if cfg.disablePolling then (st, [])
  else
    siteIds.foldl
      (fun acc siteId =>
        let r := startSitePoller cfg acc.1 siteId
        (r.1, acc.2 ++ r.2))
      (st, [])

/-- A sequence of streaming-health callbacks delivered to the platform. -/
def runHealthEvents (cfg : PlatformCfg) (st : PlatformState)
    (events : List Bool) : PlatformState × List PollerEvent :=
  events.foldl
    (fun acc b =>
      let r := handleStreamingHealthChange cfg acc.1 b
      (r.1, acc.2 ++ r.2))
    (st, [])

/-- Modelled from the spec: the ChannelHealthMonitor (the streaming-health
tracking inside `KumoAPI`, exposed through `onStreamingHealthChange` and
`setStreamingHealthConfig`) is referenced by the platform but its
implementation is not among the provided sources.  Per spec section 4.2 it
is a two-state machine whose health-changed callback fires exactly once
per actual state flip and never on a repeated confirmation of the same
value. -/
structure ChannelHealthMonitor where
  isHealthy : Bool
deriving DecidableEq

/-- Modelled from the spec: processing one raw connectivity signal fires
the health-changed callback (carrying the new value) exactly when the
value actually flips. -/
def processSignal (m : ChannelHealthMonitor) (raw : Bool) :
    ChannelHealthMonitor × List Bool :=
  if raw = m.isHealthy then (m, [])
  else ({ isHealthy := raw }, [raw])

/-- Modelled from the spec: processing a sequence of raw connectivity
signals, collecting the fired health-changed callbacks in order. -/
def runSignals (m : ChannelHealthMonitor) : List Bool →
    ChannelHealthMonitor × List Bool
  | [] => (m, [])
  | s :: rest =>
    let r1 := processSignal m s
    let r2 := runSignals r1.1 rest
    (r2.1, r1.2 ++ r2.2)

/-- The number of actual value flips in a signal sequence starting from
health value `h`. -/
def countFlips (h : Bool) : List Bool → ℕ
  | [] => 0
  | s :: rest => (if s = h then 0 else 1) + countFlips s rest

/-- The mode-specific setpoint of the current operation mode is absent
(or the mode has no specific setpoint at all). -/
def modeSetpointAbsent (s : DeviceStatus) : Bool :=
  if s.operationMode = "heat" then s.spHeat.isMissing
  else if s.operationMode = "cool" then s.spCool.isMissing
  else if s.operationMode = "auto" then s.spAuto.isMissing
  else true

/-- Agreement of two statuses on every field other than the setpoints
`spHeat` and `spCool`. -/
def statusAgreesExceptSetpoints (a b : DeviceStatus) : Prop :=
  a.id = b.id ∧ a.deviceSerial = b.deviceSerial ∧ a.rssi = b.rssi ∧
  a.power = b.power ∧ a.operationMode = b.operationMode ∧
  a.humidity = b.humidity ∧ a.fanSpeed = b.fanSpeed ∧
  a.airDirection = b.airDirection ∧ a.roomTemp = b.roomTemp ∧
  a.spAuto = b.spAuto

/-- Agreement of two statuses on every field other than `operationMode`
and `power`. -/
def statusAgreesExceptModePower (a b : DeviceStatus) : Prop :=
  a.id = b.id ∧ a.deviceSerial = b.deviceSerial ∧ a.rssi = b.rssi ∧
  a.humidity = b.humidity ∧ a.fanSpeed = b.fanSpeed ∧
  a.airDirection = b.airDirection ∧ a.roomTemp = b.roomTemp ∧
  a.spAuto = b.spAuto ∧ a.spHeat = b.spHeat ∧ a.spCool = b.spCool

/-- A concrete accepted status for device D1 (site zone z1). -/
def statusD1 : DeviceStatus :=
  { id := some "z1"
    deviceSerial := "D1"
    rssi := .num (-50)
    power := .num 1
    operationMode := "heat"
    humidity := .null
    fanSpeed := "auto"
    airDirection := "auto"
    roomTemp := .num 21
    spCool := .num 24
    spHeat := .num 22
    spAuto := .null }

/-- A concrete status whose room temperature is `NaN`. -/
def statusNanTemp : DeviceStatus :=
  { statusD1 with roomTemp := .nan }

/-- A concrete powered-off status for device D1. -/
def statusOff : DeviceStatus :=
  { statusD1 with operationMode := "off", power := .num 0 }

/-- An accessory already holding `statusD1`. -/
def accBefore : AccessoryState :=
  { currentStatus := some statusD1, hasHumiditySensor := false }

/-- An accessory holding the powered-off status. -/
def accOff : AccessoryState :=
  { currentStatus := some statusOff, hasHumiditySensor := false }

/-- A pull-channel zone whose adapter reports `roomTemp: null`. -/
def zoneMissingTemp : Zone :=
  { id := some "z1"
    adapter :=
      { id := "a"
        deviceSerial := "D1"
        roomTemp := .null
        spHeat := .num 22
        spCool := .num 24
        spAuto := .null
        humidity := .null
        power := .num 1
        operationMode := "heat"
        fanSpeed := "auto"
        airDirection := "auto"
        rssi := .num (-50) } }

/-- A push-channel payload whose `roomTemp` is `undefined`. -/
def streamMissingTemp : StreamUpdate :=
  { id := none
    roomTemp := .undef
    spHeat := .num 22
    spCool := .num 24
    spAuto := .null
    humidity := .null
    power := .num 1
    operationMode := "heat"
    fanSpeed := none
    airDirection := none
    rssi := .undef }

/-- A `JsVal` that passes `isPlainNumber` is a plain number. -/
theorem JsVal.isPlainNumber_exists {v : JsVal} (h : v.isPlainNumber = true) :
    ∃ q : ℚ, v = .num q := by
  cases v with
  | num q => exact ⟨q, rfl⟩
  | undef => simp [JsVal.isPlainNumber] at h
  | null => simp [JsVal.isPlainNumber] at h
  | nan => simp [JsVal.isPlainNumber] at h

/-- C3: a snapshot whose current measured temperature (`roomTemp`) is
`null` or absent is never applied to the per-device store, on either
channel: the stored state is exactly what it was before, and the latest
state read afterwards is the prior value. -/
theorem missing_roomtemp_rejected
    (st : AccessoryState) (zone : Zone) (serial : String) (data : StreamUpdate)
    (hz : zone.adapter.roomTemp.isMissing = true)
    (hd : data.roomTemp.isMissing = true) :
    updateFromZone st zone = st ∧
    handleStreamingUpdate st serial data = st ∧
    (updateFromZone st zone).currentStatus = st.currentStatus ∧
    (handleStreamingUpdate st serial data).currentStatus = st.currentStatus := by
  have h1 : updateFromZone st zone = st := by
    unfold updateFromZone processZoneUpdate
    simp [hz]
  have h2 : handleStreamingUpdate st serial data = st := by
    unfold handleStreamingUpdate
    simp [hd]
  exact ⟨h1, h2, by rw [h1], by rw [h2]⟩

/-- Witness for C3 at a concrete store, zone and streaming payload. -/
theorem missing_roomtemp_rejected_witness :
    updateFromZone accBefore zoneMissingTemp = accBefore ∧
    handleStreamingUpdate accBefore "D1" streamMissingTemp = accBefore ∧
    (updateFromZone accBefore zoneMissingTemp).currentStatus = accBefore.currentStatus ∧
    (handleStreamingUpdate accBefore "D1" streamMissingTemp).currentStatus =
      accBefore.currentStatus :=
  missing_roomtemp_rejected accBefore zoneMissingTemp "D1" streamMissingTemp
    (by decide) (by decide)

/-- C9: `sendCommand` returns true exactly when the request resolved to a
response whose `devices` field is an array containing the commanded
device's serial; every other case returns false. -/
theorem sendCommand_success_iff (serial : String)
    (response : Option SendCommandResponse) :
    sendCommand serial response = true ↔
      ∃ ds : List String,
        response = some { devices := .arr ds } ∧ serial ∈ ds := by
  unfold sendCommand
  cases response with
  | none => simp
  | some r =>
    cases r with
    | mk devs =>
      cases devs with
      | undef => simp
      | null => simp
      | notAnArray => simp
      | arr ds => simp [List.contains]

/-- C10: the temperature getters are total and never surface an error or
`NaN`: they always produce a plain number; with no cached status and a
failed on-demand fetch they return 20; a cached-or-fetched status whose
`roomTemp` is not a usable number yields 20; and the target-temperature
derivation falls back to the heat setpoint, then to 20, when the
mode-specific setpoint is absent. -/
theorem temperature_getters_total_and_fallback :
    (∀ c f : Option DeviceStatus, ∃ q : ℚ, getCurrentTemperature c f = .num q) ∧
    (∀ c f : Option DeviceStatus, ∃ q : ℚ, getTargetTemperature c f = .num q) ∧
    getCurrentTemperature none none = .num 20 ∧
    getTargetTemperature none none = .num 20 ∧
    (∀ s : DeviceStatus, s.roomTemp.isPlainNumber = false →
      getCurrentTemperature (some s) none = .num 20 ∧
      getCurrentTemperature none (some s) = .num 20) ∧
    (∀ s : DeviceStatus, modeSetpointAbsent s = true →
      getTargetTempFromStatus s =
        (if s.spHeat.isMissing then JsVal.num 20 else s.spHeat)) := by
  refine ⟨?_, ?_, rfl, rfl, ?_, ?_⟩
  · intro c f
    unfold getCurrentTemperature
    cases c with
    | some s =>
      by_cases h : s.roomTemp.isPlainNumber = true
      · obtain ⟨q, hq⟩ := JsVal.isPlainNumber_exists h
        exact ⟨q, by simp [hq, JsVal.isPlainNumber]⟩
      · exact ⟨20, by simp [h]⟩
    | none =>
      cases f with
      | none => exact ⟨20, rfl⟩
      | some s =>
        by_cases h : s.roomTemp.isPlainNumber = true
        · obtain ⟨q, hq⟩ := JsVal.isPlainNumber_exists h
          exact ⟨q, by simp [hq, JsVal.isPlainNumber]⟩
        · exact ⟨20, by simp [h]⟩
  · intro c f
    unfold getTargetTemperature
    cases c with
    | some s =>
      by_cases h : (getTargetTempFromStatus s).isPlainNumber = true
      · obtain ⟨q, hq⟩ := JsVal.isPlainNumber_exists h
        exact ⟨q, by simp [hq, JsVal.isPlainNumber]⟩
      · exact ⟨20, by simp [h]⟩
    | none =>
      cases f with
      | none => exact ⟨20, rfl⟩
      | some s =>
        by_cases h : (getTargetTempFromStatus s).isPlainNumber = true
        · obtain ⟨q, hq⟩ := JsVal.isPlainNumber_exists h
          exact ⟨q, by simp [hq, JsVal.isPlainNumber]⟩
        · exact ⟨20, by simp [h]⟩
  · intro s h
    constructor
    · unfold getCurrentTemperature
      simp [h]
    · unfold getCurrentTemperature
      simp [h]
  · intro s h
    unfold getTargetTempFromStatus
    unfold modeSetpointAbsent at h
    by_cases h1 : s.operationMode = "heat"
    · simp [h1] at h
      simp [h1, h]
    · by_cases h2 : s.operationMode = "cool"
      · simp [h1, h2] at h
        cases hh : s.spHeat.isMissing <;> simp [h1, h2, h, hh]
      · by_cases h3 : s.operationMode = "auto"
        · simp [h1, h2, h3] at h
          cases hh : s.spHeat.isMissing <;> simp [h1, h2, h3, h, hh]
        · cases hh : s.spHeat.isMissing <;> simp [h1, h2, h3, hh]

/-- Witness for C10 at a concrete `NaN`-temperature status and at a
status in cool mode with no cool setpoint. -/
theorem temperature_getters_witness :
    (getCurrentTemperature (some statusNanTemp) none = .num 20 ∧
     getCurrentTemperature none (some statusNanTemp) = .num 20) ∧
    getTargetTempFromStatus { statusD1 with operationMode := "cool", spCool := .undef } =
      (if ({ statusD1 with operationMode := "cool", spCool := .undef } : DeviceStatus).spHeat.isMissing
       then JsVal.num 20
       else ({ statusD1 with operationMode := "cool", spCool := .undef } : DeviceStatus).spHeat) :=
  ⟨temperature_getters_total_and_fallback.2.2.2.2.1 statusNanTemp (by decide),
   temperature_getters_total_and_fallback.2.2.2.2.2
     { statusD1 with operationMode := "cool", spCool := .undef } (by decide)⟩

/-- C7: a pull response marked unchanged (HTTP 304 against the stored
entity tag) produces the distinct no-update result (`notModified = true`,
stored etag kept), which differs from the result for an explicitly empty
collection (`notModified = false`); and distributing no zone data leaves
every handler's stored device state exactly as it was. -/
theorem unchanged_distinct_from_empty (t : String) (storedEtag e : Option String)
    (handlers : List SiteHandler) :
    (getZonesWithETag (some t) true .notModified304).1 =
      { zones := [], notModified := true } ∧
    (getZonesWithETag (some t) true .notModified304).2 = some t ∧
    (getZonesWithETag storedEtag true (.ok [] e)).1 =
      { zones := [], notModified := false } ∧
    ({ zones := [], notModified := true } : ZonesWithETagResult) ≠
      { zones := [], notModified := false } ∧
    pollSiteDistribute handlers [] = handlers := by
  refine ⟨rfl, rfl, rfl, by decide, ?_⟩
  unfold pollSiteDistribute
  induction handlers with
  | nil => rfl
  | cons h hs ih => simp_all [List.find?]

/-- Witness for C7 at a concrete etag, site and handler list. -/
theorem unchanged_distinct_from_empty_witness :
    (getZonesWithETag (some "etag1") true .notModified304).1 =
      { zones := [], notModified := true } ∧
    (getZonesWithETag (some "etag1") true .notModified304).2 = some "etag1" ∧
    (getZonesWithETag (some "etag1") true (.ok [] none)).1 =
      { zones := [], notModified := false } ∧
    ({ zones := [], notModified := true } : ZonesWithETagResult) ≠
      { zones := [], notModified := false } ∧
    pollSiteDistribute [{ serial := "D1", acc := accBefore }] [] =
      [{ serial := "D1", acc := accBefore }] :=
  unchanged_distinct_from_empty "etag1" (some "etag1") none
    [{ serial := "D1", acc := accBefore }]

/-- C8: starting a pull loop for a site that already has one active is a
no-op: the state (existing timer, its interval, poller membership) is
returned unchanged and no timer or poll event is produced. -/
theorem startSitePoller_idempotent (cfg : PlatformCfg) (st : PlatformState)
    (siteId : String)
    (h : (st.sitePollers.lookup siteId).isSome = true) :
    startSitePoller cfg st siteId = (st, []) := by
  unfold startSitePoller
  simp [h]

/-- A config with polling enabled and default intervals. -/
def cfgPoll : PlatformCfg :=
  { disablePolling := false, pollInterval := none, degradedPollInterval := none }

/-- A config with `disablePolling` set and default intervals. -/
def cfgDisable : PlatformCfg :=
  { disablePolling := true, pollInterval := none, degradedPollInterval := none }

/-- The platform state right after construction: no pollers, streaming
unhealthy, not degraded. -/
def platformStart : PlatformState :=
  { sitePollers := [], isStreamingHealthy := false, isDegradedMode := false,
    nextTimerId := 0 }

/-- A state with one active normal-interval poller for site S1, streaming
not yet healthy (the post-discovery state with polling enabled). -/
def stOneSite : PlatformState :=
  { sitePollers := [("S1", { timerId := 0, intervalMs := 30000 })],
    isStreamingHealthy := false, isDegradedMode := false, nextTimerId := 1 }

/-- Like `stOneSite` but with streaming currently healthy. -/
def stOneSiteHealthy : PlatformState :=
  { stOneSite with isStreamingHealthy := true }

/-- Witness for C8 at a concrete state already polling site S1. -/
theorem startSitePoller_idempotent_witness :
    startSitePoller cfgPoll stOneSite "S1" = (stOneSite, []) :=
  startSitePoller_idempotent cfgPoll stOneSite "S1" (by decide)

/-- C5: health-changed callbacks are edge-triggered.  For the signal
sequence healthy, healthy, unhealthy, unhealthy, healthy processed by a
currently-healthy monitor exactly two callbacks fire (unhealthy then
healthy); a repeated confirmation of the current value fires nothing, an
actual flip fires exactly one callback carrying the new value, and over
any signal sequence the number of callbacks equals the number of actual
value flips. -/
theorem health_callbacks_edge_triggered :
    (runSignals { isHealthy := true } [true, true, false, false, true]).2 =
      [false, true] ∧
    (∀ (m : ChannelHealthMonitor) (raw : Bool), raw = m.isHealthy →
      processSignal m raw = (m, [])) ∧
    (∀ (m : ChannelHealthMonitor) (raw : Bool), raw ≠ m.isHealthy →
      (processSignal m raw).2 = [raw]) ∧
    (∀ (m : ChannelHealthMonitor) (sigs : List Bool),
      (runSignals m sigs).2.length = countFlips m.isHealthy sigs) := by
  refine ⟨by decide, ?_, ?_, ?_⟩
  · intro m raw h
    simp [processSignal, h]
  · intro m raw h
    simp [processSignal, h]
  · intro m sigs
    induction sigs generalizing m with
    | nil => rfl
    | cons s rest ih =>
      by_cases h : s = m.isHealthy
      · simp [runSignals, processSignal, countFlips, h, ← ih]
      · simp only [runSignals, processSignal, countFlips, if_neg h]
        simp [h, ih { isHealthy := s }]
        omega

/-- Witness for C5: a repeated healthy confirmation fires no callback,
and a flip to unhealthy fires exactly one. -/
theorem health_callbacks_edge_triggered_witness :
    processSignal { isHealthy := true } true = ({ isHealthy := true }, []) ∧
    (processSignal { isHealthy := true } false).2 = [false] :=
  ⟨health_callbacks_edge_triggered.2.1 { isHealthy := true } true rfl,
   health_callbacks_edge_triggered.2.2.1 { isHealthy := true } false (by decide)⟩

/-- While a refresh promise is held and the token is still invalid, every
further `ensureAuthenticated` entry leaves the session untouched and joins
that same promise. -/
theorem runConcurrentEntries_locked (n : ℕ) (st : AuthState) (pid : ℕ)
    (h1 : tokenNeedsRefresh st = true)
    (h2 : st.refreshInProgress = some pid) :
    runConcurrentEntries n st = (st, List.replicate n (.awaitPromise pid)) := by
  induction n with
  | zero => rfl
  | succ k ih =>
    have he : ensureAuthenticatedEntry st = (st, .awaitPromise pid) := by
      unfold ensureAuthenticatedEntry
      simp [h1, h2]
    simp [runConcurrentEntries, he, ih, List.replicate]

/-- C4: for any number n ≥ 2 of concurrent `ensureAuthenticated` callers
arriving while no valid token exists and no refresh is in flight, exactly
one refresh/login operation is started; every caller awaits that single
operation's promise, so all n calls resolve to the same boolean outcome. -/
theorem ensureAuthenticated_single_refresh (n : ℕ) (st : AuthState)
    (hn : 2 ≤ n)
    (htok : tokenNeedsRefresh st = true)
    (hfree : st.refreshInProgress = none) :
    (runConcurrentEntries n st).1.startedRefreshOps = st.startedRefreshOps + 1 ∧
    (runConcurrentEntries n st).2 =
      List.replicate n (AuthAwait.awaitPromise st.nextPromiseId) ∧
    ∀ b : Bool,
      (runConcurrentEntries n st).2.map (resolveAwait b) = List.replicate n b := by
  obtain ⟨k, rfl⟩ : ∃ k, n = k + 1 := ⟨n - 1, by omega⟩
  have he : ensureAuthenticatedEntry st =
      ({ st with refreshInProgress := some st.nextPromiseId,
                 startedRefreshOps := st.startedRefreshOps + 1,
                 nextPromiseId := st.nextPromiseId + 1 },
       .awaitPromise st.nextPromiseId) := by
    unfold ensureAuthenticatedEntry
    simp [htok, hfree]
  have h1 : tokenNeedsRefresh
      { st with refreshInProgress := some st.nextPromiseId,
                startedRefreshOps := st.startedRefreshOps + 1,
                nextPromiseId := st.nextPromiseId + 1 } = true := by
    unfold tokenNeedsRefresh at htok ⊢
    exact htok
  have hrun := runConcurrentEntries_locked k
    { st with refreshInProgress := some st.nextPromiseId,
              startedRefreshOps := st.startedRefreshOps + 1,
              nextPromiseId := st.nextPromiseId + 1 }
    st.nextPromiseId h1 rfl
  refine ⟨?_, ?_, ?_⟩
  · simp [runConcurrentEntries, he, hrun]
  · simp [runConcurrentEntries, he, hrun, List.replicate]
  · intro b
    simp [runConcurrentEntries, he, hrun, List.replicate, resolveAwait]

/-- A fresh session: no tokens at all, nothing in flight. -/
def authStart : AuthState :=
  { accessToken := none, now := 0, tokenExpiresAt := 0,
    refreshInProgress := none, startedRefreshOps := 0, nextPromiseId := 0 }

/-- Witness for C4 with two concurrent callers on a fresh session. -/
theorem ensureAuthenticated_single_refresh_witness :
    (runConcurrentEntries 2 authStart).1.startedRefreshOps =
      authStart.startedRefreshOps + 1 ∧
    (runConcurrentEntries 2 authStart).2 =
      List.replicate 2 (AuthAwait.awaitPromise authStart.nextPromiseId) ∧
    ∀ b : Bool,
      (runConcurrentEntries 2 authStart).2.map (resolveAwait b) =
        List.replicate 2 b :=
  ensureAuthenticated_single_refresh 2 authStart (by decide) (by decide) rfl

/-- C1: evaluation of the code at the claim's scenario.  With
`disablePolling = true` discovery starts no poller for the discovered site
S1 (so no pull timer is ever armed while healthy), but after the health
callbacks healthy-then-unhealthy the transition handler also arms nothing:
`enterDegradedMode` only restarts entries already in the (empty)
`sitePollers` map and `startSitePoller` is never invoked after discovery.
The platform ends in degraded mode with zero pollers and zero arm events,
although one site is active. -/
theorem disable_polling_degraded_arms_nothing :
    startPollersAfterDiscovery cfgDisable ["S1"] platformStart =
      (platformStart, []) ∧
    (runHealthEvents cfgDisable platformStart [true, false]).2.countP
      PollerEvent.isArm = 0 ∧
    (runHealthEvents cfgDisable platformStart [true, false]).2.countP
      PollerEvent.isPoll = 0 ∧
    (runHealthEvents cfgDisable platformStart [true, false]).1.sitePollers = [] ∧
    (runHealthEvents cfgDisable platformStart [true, false]).1.isDegradedMode =
      true := by
  decide

/-- C2 counterexample: a health-changed event to healthy received by a
platform that is not in degraded mode (the state right after discovery
with polling enabled, before streaming first connects) performs no
cancellation, no immediate pull and no rescheduling: the existing S1
poller keeps its timer and interval and the event list is empty, against
the claim's demand of a cancel-and-reschedule with one immediate pull on
every health-changed event to healthy. -/
theorem healthy_event_outside_degraded_noop :
    handleStreamingHealthChange cfgPoll stOneSite true =
      ({ stOneSite with isStreamingHealthy := true }, []) ∧
    (handleStreamingHealthChange cfgPoll stOneSite true).2.countP
      PollerEvent.isPoll = 0 := by
  decide

/-- The restarted entries keep their sites, in order. -/
theorem restartEntries_map_fst (es : List (String × Poller)) (n i : ℕ) :
    (restartEntries es n i).1.map Prod.fst = es.map Prod.fst := by
  induction es generalizing n with
  | nil => rfl
  | cons e rest ih => simp [restartEntries, ih]

/-- Every restarted entry runs at the new interval. -/
theorem restartEntries_intervals (es : List (String × Poller)) (n i : ℕ) :
    ∀ e ∈ (restartEntries es n i).1, e.2.intervalMs = i := by
  induction es generalizing n with
  | nil => intro e he; simp [restartEntries] at he
  | cons hd rest ih =>
    intro e he
    simp [restartEntries] at he
    rcases he with he | he
    · simp [he]
    · exact ih (n + 1) e he

/-- For every entry being restarted, the event trace cancels its old
timer, polls its site immediately and arms a fresh timer at the new
interval. -/
theorem restartEntries_events (es : List (String × Poller)) (n i : ℕ) :
    ∀ e ∈ es,
      PollerEvent.cancelTimer e.1 e.2.timerId ∈ (restartEntries es n i).2.1 ∧
      PollerEvent.immediatePoll e.1 ∈ (restartEntries es n i).2.1 ∧
      ∃ tid, PollerEvent.armTimer e.1 tid i ∈ (restartEntries es n i).2.1 := by
  induction es generalizing n with
  | nil => intro e he; simp at he
  | cons hd rest ih =>
    intro e he
    rcases List.mem_cons.mp he with rfl | he
    · refine ⟨?_, ?_, n, ?_⟩ <;> simp [restartEntries]
    · obtain ⟨h1, h2, tid, h3⟩ := ih (n + 1) e he
      refine ⟨?_, ?_, tid, ?_⟩ <;> simp [restartEntries, h1, h2, h3]

/-- C2 (amended): on a health-changed event to unhealthy received while
healthy and not degraded, every site with an active poller has its timer
cancelled, one immediate pull performed, and a fresh timer armed at the
degraded interval; on a health-changed event to healthy received while in
degraded mode, all timers are cancelled outright when `disablePolling` is
set, and otherwise every active site is cancelled, immediately pulled and
rearmed at the normal interval.  (A healthy event outside degraded mode is
a no-op, per the counterexample.) -/
theorem health_flip_poller_protocol (cfg : PlatformCfg) (st : PlatformState) :
    (st.isStreamingHealthy = true → st.isDegradedMode = false →
      (handleStreamingHealthChange cfg st false).1.isDegradedMode = true ∧
      (handleStreamingHealthChange cfg st false).1.sitePollers.map Prod.fst =
        st.sitePollers.map Prod.fst ∧
      (∀ e ∈ (handleStreamingHealthChange cfg st false).1.sitePollers,
        e.2.intervalMs = degradedIntervalMs cfg) ∧
      (∀ e ∈ st.sitePollers,
        PollerEvent.cancelTimer e.1 e.2.timerId ∈
          (handleStreamingHealthChange cfg st false).2 ∧
        PollerEvent.immediatePoll e.1 ∈
          (handleStreamingHealthChange cfg st false).2 ∧
        ∃ tid, PollerEvent.armTimer e.1 tid (degradedIntervalMs cfg) ∈
          (handleStreamingHealthChange cfg st false).2)) ∧
    (st.isStreamingHealthy = false → st.isDegradedMode = true →
      cfg.disablePolling = true →
      (handleStreamingHealthChange cfg st true).1.sitePollers = [] ∧
      (handleStreamingHealthChange cfg st true).2 =
        st.sitePollers.map (fun e => PollerEvent.cancelTimer e.1 e.2.timerId)) ∧
    (st.isStreamingHealthy = false → st.isDegradedMode = true →
      cfg.disablePolling = false →
      (handleStreamingHealthChange cfg st true).1.sitePollers.map Prod.fst =
        st.sitePollers.map Prod.fst ∧
      (∀ e ∈ (handleStreamingHealthChange cfg st true).1.sitePollers,
        e.2.intervalMs = normalIntervalMs cfg) ∧
      (∀ e ∈ st.sitePollers,
        PollerEvent.cancelTimer e.1 e.2.timerId ∈
          (handleStreamingHealthChange cfg st true).2 ∧
        PollerEvent.immediatePoll e.1 ∈
          (handleStreamingHealthChange cfg st true).2 ∧
        ∃ tid, PollerEvent.armTimer e.1 tid (normalIntervalMs cfg) ∈
          (handleStreamingHealthChange cfg st true).2)) := by
  refine ⟨?_, ?_, ?_⟩
  · intro hh hd
    have hr : handleStreamingHealthChange cfg st false =
        restartAllPollers
          { st with isStreamingHealthy := false, isDegradedMode := true }
          (degradedIntervalMs cfg) := by
      unfold handleStreamingHealthChange enterDegradedMode
      simp [hh, hd]
    rw [hr]
    unfold restartAllPollers
    exact ⟨rfl, restartEntries_map_fst st.sitePollers st.nextTimerId _,
      restartEntries_intervals st.sitePollers st.nextTimerId _,
      restartEntries_events st.sitePollers st.nextTimerId _⟩
  · intro hh hd hdp
    have hr : handleStreamingHealthChange cfg st true =
        stopAllPollers
          { st with isStreamingHealthy := true, isDegradedMode := false } := by
      unfold handleStreamingHealthChange exitDegradedMode
      simp [hh, hd, hdp]
    rw [hr]
    exact ⟨rfl, rfl⟩
  · intro hh hd hdp
    have hr : handleStreamingHealthChange cfg st true =
        restartAllPollers
          { st with isStreamingHealthy := true, isDegradedMode := false }
          (normalIntervalMs cfg) := by
      unfold handleStreamingHealthChange exitDegradedMode
      simp [hh, hd, hdp]
    rw [hr]
    unfold restartAllPollers
    exact ⟨restartEntries_map_fst st.sitePollers st.nextTimerId _,
      restartEntries_intervals st.sitePollers st.nextTimerId _,
      restartEntries_events st.sitePollers st.nextTimerId _⟩

/-- Witness for C2 (amended): the unhealthy flip at a concrete one-site
healthy platform enters degraded mode and keeps the poller membership. -/
theorem health_flip_poller_protocol_witness :
    (handleStreamingHealthChange cfgPoll stOneSiteHealthy false).1.isDegradedMode =
      true ∧
    (handleStreamingHealthChange cfgPoll stOneSiteHealthy false).1.sitePollers.map
      Prod.fst = stOneSiteHealthy.sitePollers.map Prod.fst :=
  ⟨((health_flip_poller_protocol cfgPoll stOneSiteHealthy).1 rfl rfl).1,
   ((health_flip_poller_protocol cfgPoll stOneSiteHealthy).1 rfl rfl).2.1⟩

/-- C6 counterexample: a successful mode command (HEAT, value 1) on a
device that is off produces exactly one effect, the remote send whose
payload contains only `operationMode` — no confirmation re-fetch of any
delay is scheduled — and the optimistic merge changes `power`, a field not
present in the commanded payload. -/
theorem command_success_no_refetch_cex :
    (setTargetHeatingCoolingState accOff "D1" 1 true).2 =
      [AccEffect.sendCmd "D1" { operationMode := some "heat" }] ∧
    (setTargetHeatingCoolingState accOff "D1" 1 true).2.countP
      AccEffect.isRefetch = 0 ∧
    (setTargetHeatingCoolingState accOff "D1" 1 true).1.currentStatus =
      some { statusOff with operationMode := "heat", power := .num 1 } ∧
    statusOff.power ≠ JsVal.num 1 := by
  decide

/-- C6 (amended): each setter attempts the remote send at most once and
never schedules a confirmation re-fetch (reconciliation is left to the
next poll or streaming update); a failed send leaves the stored state
entirely unchanged and logs the failure; a successful temperature command
merges exactly the mode-appropriate setpoints, leaving every other field
as it was; a successful mode command merges the commanded mode together
with the derived power flag, leaving every other field as it was. -/
theorem command_path_effects (st : AccessoryState) (serial : String)
    (temp : ℚ) (value : ℕ) (sendOk : Bool) :
    (setTargetTemperature st serial temp sendOk).2.countP AccEffect.isSend ≤ 1 ∧
    (setTargetHeatingCoolingState st serial value sendOk).2.countP
      AccEffect.isSend ≤ 1 ∧
    (setTargetTemperature st serial temp sendOk).2.countP
      AccEffect.isRefetch = 0 ∧
    (setTargetHeatingCoolingState st serial value sendOk).2.countP
      AccEffect.isRefetch = 0 ∧
    ((setTargetTemperature st serial temp false).1 = st ∧
      AccEffect.logError ∈ (setTargetTemperature st serial temp false).2) ∧
    ((setTargetHeatingCoolingState st serial value false).1 = st ∧
      AccEffect.logError ∈ (setTargetHeatingCoolingState st serial value false).2) ∧
    (∀ s, st.currentStatus = some s →
      ∃ s2, (setTargetTemperature st serial temp true).1.currentStatus = some s2 ∧
        statusAgreesExceptSetpoints s2 s ∧
        s2.spHeat = (match (tempCommandsFor s.operationMode temp).spHeat with
                     | some h => JsVal.num h
                     | none => s.spHeat) ∧
        s2.spCool = (match (tempCommandsFor s.operationMode temp).spCool with
                     | some c => JsVal.num c
                     | none => s.spCool)) ∧
    (∀ s mode, st.currentStatus = some s → hkValueToMode value = some mode →
      ∃ s2, (setTargetHeatingCoolingState st serial value true).1.currentStatus =
          some s2 ∧
        statusAgreesExceptModePower s2 s ∧
        s2.operationMode = mode ∧
        s2.power = JsVal.num (if mode = "off" then 0 else 1)) := by
  refine ⟨?_, ?_, ?_, ?_, ?_, ?_, ?_, ?_⟩
  · unfold setTargetTemperature
    cases st.currentStatus with
    | none => simp [AccEffect.isSend]
    | some s => cases sendOk <;> simp [AccEffect.isSend]
  · unfold setTargetHeatingCoolingState
    cases hv : hkValueToMode value with
    | none => simp [AccEffect.isSend]
    | some mode =>
      cases sendOk with
      | false => simp [AccEffect.isSend]
      | true =>
        cases st.currentStatus with
        | none => simp [AccEffect.isSend]
        | some s => simp [AccEffect.isSend]
  · unfold setTargetTemperature
    cases st.currentStatus with
    | none => simp [AccEffect.isRefetch]
    | some s => cases sendOk <;> simp [AccEffect.isRefetch]
  · unfold setTargetHeatingCoolingState
    cases hv : hkValueToMode value with
    | none => simp [AccEffect.isRefetch]
    | some mode =>
      cases sendOk with
      | false => simp [AccEffect.isRefetch]
      | true =>
        cases st.currentStatus with
        | none => simp [AccEffect.isRefetch]
        | some s => simp [AccEffect.isRefetch]
  · unfold setTargetTemperature
    cases st.currentStatus with
    | none => simp
    | some s => simp
  · unfold setTargetHeatingCoolingState
    cases hv : hkValueToMode value with
    | none => simp
    | some mode => simp
  · intro s hcs
    unfold setTargetTemperature
    rw [hcs]
    refine ⟨_, rfl, ?_, rfl, rfl⟩
    unfold statusAgreesExceptSetpoints
    exact ⟨rfl, rfl, rfl, rfl, rfl, rfl, rfl, rfl, rfl, rfl⟩
  · intro s mode hcs hv
    unfold setTargetHeatingCoolingState
    rw [hv, hcs]
    refine ⟨_, rfl, ?_, rfl, rfl⟩
    unfold statusAgreesExceptModePower
    exact ⟨rfl, rfl, rfl, rfl, rfl, rfl, rfl, rfl, rfl, rfl⟩

/-- Witness for C6 (amended): a successful HEAT command on the concrete
off-state accessory merges the mode and derived power while agreeing with
the prior status elsewhere. -/
theorem command_path_effects_witness :
    ∃ s2, (setTargetHeatingCoolingState accOff "D1" 1 true).1.currentStatus =
        some s2 ∧
      statusAgreesExceptModePower s2 statusOff ∧
      s2.operationMode = "heat" ∧
      s2.power = JsVal.num (if "heat" = "off" then 0 else 1) :=
  (command_path_effects accOff "D1" 21 1 true).2.2.2.2.2.2.2
    statusOff "heat" rfl rfl
